import Mathlib

/-!
Verification of `inception_resnet_v2_inputs.py` (Inception-ResNet-v2 for Keras).

The script is declarative assembly of a Keras layer graph.  We embed the graph
construction shallowly: a `KTensor` is a symbolic node of the computation
graph; every node carries the static shape that Keras would infer for it
(computed by the layer-application builders below, using Keras's output-shape
arithmetic for `same`/`valid` padding).  Shapes are lists of `Nat` listing the
non-batch dimensions, channels last (the script runs with the default
`channels_last` image data format).  Python exceptions are modelled with
`Except`; the residual scale constants are embedded as rationals.
-/

namespace InceptionResnetV2

/-- Keras padding modes used by the script. -/
inductive Padding where
  | same : Padding
  | valid : Padding
deriving DecidableEq

/-- A Keras kernel/pool size argument: a scalar (square kernel) or an
asymmetric pair, as accepted by `Conv2D` (the script passes e.g. `3` and
`[1, 7]`). -/
inductive KernelSize where
  | square (k : Nat) : KernelSize
  | rect (kh kw : Nat) : KernelSize
deriving DecidableEq

/-- The height/width extent of a kernel-size argument. -/
def KernelSize.dims : KernelSize → Nat × Nat
  | .square k => (k, k)
  | .rect kh kw => (kh, kw)

/-- Python exceptions raised by the script itself. -/
inductive PyErr where
  | valueError (msg : String) : PyErr
  | unboundLocal (var : String) : PyErr
deriving DecidableEq

/-- A Python value in a position where the script's dynamic typing matters:
`include_top` is declared as a boolean but the `__main__` block passes a tuple
into it.  Only the truthiness of the value is ever consumed. -/
inductive PyVal where
  | pybool (b : Bool) : PyVal
  | pytuple (xs : List Nat) : PyVal
deriving DecidableEq

/-- Python truthiness: a bool is itself, a tuple is truthy iff non-empty. -/
def PyVal.truthy : PyVal → Bool
  | .pybool b => b
  | .pytuple xs => !xs.isEmpty

/-- A node of the Keras computation graph.  The first field of every
constructor is the static shape Keras records for the node's output (batch
dimension omitted), as computed by the builders below at graph-construction
time; `none` stands for a shape Keras could not produce (a configuration
error).  `concatenate` stores its first input separately from the rest so the
main spine of the graph is structurally accessible. -/
inductive KTensor where
  | input (sh : List Nat) : KTensor
  | conv2d (sh : Option (List Nat)) (filters : Nat) (kernel : KernelSize)
      (strides : Nat) (padding : Padding) (useBias : Bool)
      (nm : Option String) (x : KTensor) : KTensor
  | batchNorm (sh : Option (List Nat)) (axis : Nat) (scaleFlag : Bool)
      (nm : Option String) (x : KTensor) : KTensor
  | activationLayer (sh : Option (List Nat)) (kind : String)
      (nm : Option String) (x : KTensor) : KTensor
  | maxPool2d (sh : Option (List Nat)) (pool : KernelSize) (strides : Nat)
      (padding : Padding) (x : KTensor) : KTensor
  | avgPool2d (sh : Option (List Nat)) (pool : KernelSize) (strides : Nat)
      (padding : Padding) (x : KTensor) : KTensor
  | concatenate (sh : Option (List Nat)) (axis : Nat) (nm : String)
      (first : KTensor) (rest : List KTensor) : KTensor
  | scaleAdd (sh : Option (List Nat)) (scale : ℚ) (nm : String)
      (a : KTensor) (b : KTensor) : KTensor
  | globalAvgPool (sh : Option (List Nat)) (nm : Option String)
      (x : KTensor) : KTensor
  | globalMaxPool (sh : Option (List Nat)) (nm : Option String)
      (x : KTensor) : KTensor
  | dense (sh : Option (List Nat)) (units : Nat) (act : Option String)
      (nm : Option String) (x : KTensor) : KTensor

/-- The static shape of a graph node (batch dimension omitted), exactly the
shape cached when the node was built. -/
def KTensor.shape : KTensor → Option (List Nat)
  | .input sh => some sh
  | .conv2d sh _ _ _ _ _ _ _ => sh
  | .batchNorm sh _ _ _ _ => sh
  | .activationLayer sh _ _ _ => sh
  | .maxPool2d sh _ _ _ _ => sh
  | .avgPool2d sh _ _ _ _ => sh
  | .concatenate sh _ _ _ _ => sh
  | .scaleAdd sh _ _ _ _ => sh
  | .globalAvgPool sh _ _ => sh
  | .globalMaxPool sh _ _ => sh
  | .dense sh _ _ _ _ => sh

/-- Keras output extent of one spatial dimension of a convolution or pooling
window: `valid` padding needs the window to fit and yields
`(n - k) / s + 1`; `same` padding yields `ceil (n / s)`. -/
def convOutDim : Padding → Nat → Nat → Nat → Option Nat
  | .valid, n, k, s => if k ≤ n ∧ 0 < s then some ((n - k) / s + 1) else none
  | .same, n, _, s => if 0 < s then some ((n + s - 1) / s) else none

/-- Output shape of `Conv2D` on a `(h, w, c)` feature map. -/
def conv2dShape (padding : Padding) (kernel : KernelSize) (strides filters : Nat) :
    Option (List Nat) → Option (List Nat)
  | some [h, w, _] =>
    match convOutDim padding h kernel.dims.1 strides,
          convOutDim padding w kernel.dims.2 strides with
    | some h2, some w2 => some [h2, w2, filters]
    | _, _ => none
  | _ => none

/-- Output shape of `MaxPooling2D` / `AveragePooling2D` on a `(h, w, c)`
feature map: spatial window arithmetic as for a convolution, channels kept. -/
def poolShape (padding : Padding) (pool : KernelSize) (strides : Nat) :
    Option (List Nat) → Option (List Nat)
  | some [h, w, c] =>
    match convOutDim padding h pool.dims.1 strides,
          convOutDim padding w pool.dims.2 strides with
    | some h2, some w2 => some [h2, w2, c]
    | _, _ => none
  | _ => none

/-- Output shape of `Concatenate(axis=3)` from the input shapes: all inputs
must be `(h, w, c_i)` feature maps with equal spatial extents, and the channel
counts add up. -/
def concatShape : List (Option (List Nat)) → Option (List Nat)
  | [] => none
  | s :: rest =>
    match s with
    | some [h, w, c] =>
      if rest = [] then some [h, w, c]
      else
        match concatShape rest with
        | some [h2, w2, c2] => if h = h2 ∧ w = w2 then some [h, w, c + c2] else none
        | _ => none
    | _ => none

/-- Output shape of `GlobalAveragePooling2D` / `GlobalMaxPooling2D`: a
`(h, w, c)` feature map collapses to the channel vector `(c)`. -/
def gapShape : Option (List Nat) → Option (List Nat)
  | some [_, _, c] => some [c]
  | _ => none

/-- Output shape of `Dense(units)`: the last dimension is replaced by
`units`. -/
def denseShape (units : Nat) : Option (List Nat) → Option (List Nat)
  | some [] => none
  | some l => some (l.dropLast ++ [units])
  | none => none

/-- Applying a `Conv2D` layer: a graph node whose cached shape is the Keras
convolution output shape. -/
def applyConv2D (filters : Nat) (kernel : KernelSize) (strides : Nat)
    (padding : Padding) (useBias : Bool) (nm : Option String) (x : KTensor) : KTensor :=
  KTensor.conv2d (conv2dShape padding kernel strides filters x.shape)
    filters kernel strides padding useBias nm x

/-- Applying a `BatchNormalization` layer (shape preserving). -/
def applyBatchNorm (axis : Nat) (scaleFlag : Bool) (nm : Option String) (x : KTensor) : KTensor :=
  KTensor.batchNorm x.shape axis scaleFlag nm x

/-- Applying an `Activation` layer (shape preserving). -/
def applyActivation (kind : String) (nm : Option String) (x : KTensor) : KTensor :=
  KTensor.activationLayer x.shape kind nm x

/-- Applying a `MaxPooling2D` layer. -/
def applyMaxPool (pool : KernelSize) (strides : Nat) (padding : Padding) (x : KTensor) : KTensor :=
  KTensor.maxPool2d (poolShape padding pool strides x.shape) pool strides padding x

/-- Applying an `AveragePooling2D` layer. -/
def applyAvgPool (pool : KernelSize) (strides : Nat) (padding : Padding) (x : KTensor) : KTensor :=
  KTensor.avgPool2d (poolShape padding pool strides x.shape) pool strides padding x

/-- Applying `Concatenate(axis)(xs)`.  Keras rejects an empty input list; the
script only ever passes literal lists of two or more branches, so the empty
case (a bare degenerate node) is unreachable in this development. -/
def applyConcat (axis : Nat) (nm : String) : List KTensor → KTensor
  | [] => KTensor.input []
  | b :: rest =>
    KTensor.concatenate (concatShape ((b :: rest).map KTensor.shape)) axis nm b rest

/-- Applying the script's `Lambda` layer
`lambda inputs, scale: inputs[0] + inputs[1] * scale` with declared
`output_shape = K.int_shape(input)[1:]`, i.e. the shape of the first input. -/
def applyScaleAdd (scale : ℚ) (nm : String) (a b : KTensor) : KTensor :=
  KTensor.scaleAdd a.shape scale nm a b

/-- Applying a `GlobalAveragePooling2D` layer. -/
def applyGlobalAvgPool (nm : Option String) (x : KTensor) : KTensor :=
  KTensor.globalAvgPool (gapShape x.shape) nm x

/-- Applying a `GlobalMaxPooling2D` layer. -/
def applyGlobalMaxPool (nm : Option String) (x : KTensor) : KTensor :=
  KTensor.globalMaxPool (gapShape x.shape) nm x

/-- Applying a `Dense` layer. -/
def applyDense (units : Nat) (act : Option String) (nm : Option String) (x : KTensor) : KTensor :=
  KTensor.dense (denseShape units x.shape) units act nm x

/-- `K.image_data_format()` under the script's default Keras configuration. -/
def image_data_format : String := "channels_last"

/-- `conv2d_bn` from the script: convolution, then (iff `use_bias` is false) a
batch normalization over the channel axis with `scale=False`, then (iff
`activation` is non-null) an activation; derived layer names get the `_bn` /
`_ac` suffixes. -/
def conv2d_bn (x : KTensor) (filters : Nat) (kernel_size : KernelSize)
    (strides : Nat) (padding : Padding) (activation : Option String)
    (use_bias : Bool) (name : Option String) : KTensor :=
  let x1 := applyConv2D filters kernel_size strides padding use_bias name x
  let x2 :=
    if use_bias then x1
    else
      applyBatchNorm (if image_data_format = "channels_last" then 3 else 1) false
        (name.map fun s => s ++ "_bn") x1
  match activation with
  | some a => applyActivation a (name.map fun s => s ++ "_ac") x2
  | none => x2

/-- `inception_stem` from the script (stem block, 35 x 35 x 192). -/
def inception_stem (input : KTensor) : KTensor :=
  let x := conv2d_bn input 32 (.square 3) 2 .valid (some "relu") false none
  let x := conv2d_bn x 32 (.square 3) 1 .valid (some "relu") false none
  let x := conv2d_bn x 64 (.square 3) 1 .same (some "relu") false none
  let x := applyMaxPool (.square 3) 2 .valid x
  let x := conv2d_bn x 80 (.square 1) 1 .valid (some "relu") false none
  let x := conv2d_bn x 192 (.square 3) 1 .valid (some "relu") false none
  applyMaxPool (.square 3) 2 .valid x

/-- `inception_a` from the script (Inception-A block, 35 x 35 x 320). -/
def inception_a (input : KTensor) : KTensor :=
  let branch_11 := conv2d_bn input 96 (.square 1) 1 .same (some "relu") false none
  let branch_12 := conv2d_bn input 48 (.square 1) 1 .same (some "relu") false none
  let branch_22 := conv2d_bn branch_12 64 (.square 5) 1 .same (some "relu") false none
  let branch_13 := conv2d_bn input 64 (.square 1) 1 .same (some "relu") false none
  let branch_23 := conv2d_bn branch_13 96 (.square 3) 1 .same (some "relu") false none
  let branch_33 := conv2d_bn branch_23 96 (.square 3) 1 .same (some "relu") false none
  let branch_14 := applyAvgPool (.rect 3 3) 1 .same input
  let branch_24 := conv2d_bn branch_14 64 (.square 1) 1 .same (some "relu") false none
  applyConcat 3 "mixed_5b" [branch_11, branch_22, branch_33, branch_24]

/-- The `branches` list built in the `block_type == 'block35'` arm of
`inception_resnet_block`. -/
def block35_branches (input : KTensor) : List KTensor :=
  let branch_11 := conv2d_bn input 32 (.square 1) 1 .same (some "relu") false none
  let branch_12 := conv2d_bn input 32 (.square 1) 1 .same (some "relu") false none
  let branch_22 := conv2d_bn branch_12 32 (.square 3) 1 .same (some "relu") false none
  let branch_13 := conv2d_bn input 32 (.square 1) 1 .same (some "relu") false none
  let branch_23 := conv2d_bn branch_13 48 (.square 3) 1 .same (some "relu") false none
  let branch_33 := conv2d_bn branch_23 64 (.square 3) 1 .same (some "relu") false none
  [branch_11, branch_22, branch_33]

/-- The `branches` list built in the `block_type == 'block17'` arm of
`inception_resnet_block`. -/
def block17_branches (input : KTensor) : List KTensor :=
  let branch_11 := conv2d_bn input 192 (.square 1) 1 .same (some "relu") false none
  let branch_12 := conv2d_bn input 128 (.square 1) 1 .same (some "relu") false none
  let branch_22 := conv2d_bn branch_12 160 (.rect 1 7) 1 .same (some "relu") false none
  let branch_32 := conv2d_bn branch_22 192 (.rect 7 1) 1 .same (some "relu") false none
  [branch_11, branch_32]

/-- The `branches` list built in the `block_type == 'block8'` arm of
`inception_resnet_block`. -/
def block8_branches (input : KTensor) : List KTensor :=
  let branch_11 := conv2d_bn input 192 (.square 1) 1 .same (some "relu") false none
  let branch_12 := conv2d_bn input 192 (.square 1) 1 .same (some "relu") false none
  let branch_22 := conv2d_bn branch_12 224 (.rect 1 3) 1 .same (some "relu") false none
  let branch_32 := conv2d_bn branch_22 256 (.rect 3 1) 1 .same (some "relu") false none
  [branch_11, branch_32]

/-- The `if / elif / elif / else` dispatch on `block_type` at the top of
`inception_resnet_block`: the branch list for a known type, `none` for the
`raise ValueError` arm. -/
def branchesFor (block_type : String) (input : KTensor) : Option (List KTensor) :=
  if block_type = "block35" then some (block35_branches input)
  else if block_type = "block17" then some (block17_branches input)
  else if block_type = "block8" then some (block8_branches input)
  else none

/-- `inception_resnet_block` from the script.  After the branch dispatch it
concatenates the branches, projects back to the input's channel count
(`K.int_shape(input)[3]`) with a biased, activation-free 1x1 convolution,
forms `input + up * scale` via the `Lambda` layer, and then — only inside
`if activation is not None:` — binds the local `x` to the activated tensor.
The trailing `return x` therefore raises `UnboundLocalError` when
`activation` is `None`, which the embedding records as
`PyErr.unboundLocal "x"`.  A block input without a `(h, w, c)` static shape
cannot supply `K.int_shape(input)[3]`; Keras fails in that case, recorded
here as a `valueError`. -/
def inception_resnet_block (input : KTensor) (scale : ℚ) (block_type : String)
    (block_idx : Nat) (activation : Option String) : Except PyErr KTensor :=
  match branchesFor block_type input with
  | none =>
    Except.error (PyErr.valueError
      ("Unknown Inception-ResNet block type. Expects \"block35\", \"block17\" or \"block8\", but got: "
        ++ block_type))
  | some branches =>
    let block_name := block_type ++ "_" ++ toString block_idx
    let mix := applyConcat 3 (block_name ++ "_mixed") branches
    match KTensor.shape input with
    | some [_, _, c] =>
      let up := conv2d_bn mix c (.rect 1 1) 1 .same none true (some (block_name ++ "_conv"))
      let up2 := applyScaleAdd scale block_name input up
      match activation with
      | some a => Except.ok (applyActivation a (some (block_name ++ "_ac")) up2)
      | none => Except.error (PyErr.unboundLocal "x")
    | _ => Except.error (PyErr.valueError "cannot determine the channel count of the block input")

/-- `reduction_a` from the script (Mixed 6a, Reduction-A block, 17 x 17). -/
def reduction_a (input : KTensor) : KTensor :=
  let branch_11 := conv2d_bn input 384 (.square 3) 2 .valid (some "relu") false none
  let branch_12 := conv2d_bn input 256 (.square 1) 1 .same (some "relu") false none
  let branch_22 := conv2d_bn branch_12 256 (.square 3) 1 .same (some "relu") false none
  let branch_32 := conv2d_bn branch_22 384 (.square 3) 2 .valid (some "relu") false none
  let branch_13 := applyMaxPool (.rect 3 3) 2 .valid input
  applyConcat 3 "mixed_6a" [branch_11, branch_32, branch_13]

/-- `reduction_b` from the script (Mixed 7a, Reduction-B block, 8 x 8). -/
def reduction_b (input : KTensor) : KTensor :=
  let branch_11 := conv2d_bn input 256 (.square 1) 1 .same (some "relu") false none
  let branch_21 := conv2d_bn branch_11 384 (.square 3) 2 .valid (some "relu") false none
  let branch_12 := conv2d_bn input 256 (.square 1) 1 .same (some "relu") false none
  let branch_22 := conv2d_bn branch_12 288 (.square 3) 2 .valid (some "relu") false none
  let branch_13 := conv2d_bn input 256 (.square 1) 1 .same (some "relu") false none
  let branch_23 := conv2d_bn branch_13 288 (.square 3) 1 .same (some "relu") false none
  let branch_33 := conv2d_bn branch_23 320 (.square 3) 2 .valid (some "relu") false none
  let branch_14 := applyMaxPool (.rect 3 3) 2 .valid input
  applyConcat 3 "mixed_7a" [branch_21, branch_22, branch_33, branch_14]

/-- The `for block_idx in range(lo, hi)` loops of `inception_resnet_v2`,
which rebind `x` to the block output on every iteration; the blocks are
called with the default `activation='relu'`. -/
def blockLoop (sc : ℚ) (block_type : String) : List Nat → KTensor → Except PyErr KTensor
  | [], x => Except.ok x
  | i :: rest, x =>
    match inception_resnet_block x sc block_type i (some "relu") with
    | Except.error e => Except.error e
    | Except.ok y => blockLoop sc block_type rest y

/-- `WEIGHTS_PATH` from the script. -/
def WEIGHTS_PATH : String :=
  "/home/mike/keras_dnn_models/inception_resnet_v2_weights_tf_dim_ordering_tf_kernels.h5"

/-- `WEIGHTS_PATH_NO_TOP` from the script. -/
def WEIGHTS_PATH_NO_TOP : String :=
  "/home/mike/keras_dnn_models/inception_resnet_v2_weights_tf_dim_ordering_tf_kernels_notop.h5"

/-- The constructed Keras `Model` together with the weight-loading calls the
script performs on it: `loads` lists each `load_weights` invocation as the
pair (file path, `by_name` flag).  (`load_weights` is called with the default
`by_name=False`; the `by_name=True` call is commented out in the source.) -/
structure KModel where
  inputs : KTensor
  output : KTensor
  modelName : String
  loads : List (String × Bool)

/-- Modelled from the spec: `_obtain_input_shape` is imported from the
`imagenet_utils` module, which is not among the sources.  Per the spec it
determines the proper input shape, using the default size 299 (a
299 x 299 x 3 feature map, `channels_last`) when no explicit input shape is
given, forcing the default shape when ImageNet weights are requested together
with the classification head, and rejecting explicit shapes below the minimum
size or with a channel count other than 3. -/
def obtain_input_shape (input_shape : Option (List Nat)) (default_size min_size : Nat)
    (require_flatten : Bool) (weights : Option String) : Except PyErr (List Nat) :=
  match input_shape with
  | none => Except.ok [default_size, default_size, 3]
  | some s =>
    if require_flatten ∧ weights = some "imagenet" then
      if s = [default_size, default_size, 3] then Except.ok s
      else Except.error (PyErr.valueError "input_shape must match the default shape")
    else
      match s with
      | [h, w, c] =>
        if min_size ≤ h ∧ min_size ≤ w ∧ c = 3 then Except.ok s
        else Except.error (PyErr.valueError "invalid input_shape")
      | _ => Except.error (PyErr.valueError "invalid input_shape")

/-- `inception_resnet_v2` from the script.  `include_top` is kept as a dynamic
Python value because the script's own `__main__` block passes a tuple into it;
the function only ever consumes its truthiness (`require_flatten=include_top`
and the two `if include_top:` tests).  The unused `input_tensor` parameter of
the source is omitted. -/
def inception_resnet_v2 (include_top : PyVal) (weights : Option String)
    (input_shape : Option (List Nat)) (pooling : Option String) (classes : Nat) :
    Except PyErr KModel :=
  match obtain_input_shape input_shape 299 139 include_top.truthy weights with
  | Except.error e => Except.error e
  | Except.ok shape =>
    let inputs := KTensor.input shape
    let x0 := inception_a (inception_stem inputs)
    match blockLoop (17 / 100) "block35" (List.range' 1 10) x0 with
    | Except.error e => Except.error e
    | Except.ok x1 =>
      match blockLoop (1 / 10) "block17" (List.range' 1 20) (reduction_a x1) with
      | Except.error e => Except.error e
      | Except.ok x2 =>
        match blockLoop (1 / 5) "block8" (List.range' 1 10) (reduction_b x2) with
        | Except.error e => Except.error e
        | Except.ok x3 =>
          let x4 := conv2d_bn x3 1536 (.square 1) 1 .same (some "relu") false (some "conv_7b")
          let out :=
            if include_top.truthy then
              applyDense classes (some "softmax") (some "predictions")
                (applyGlobalAvgPool (some "avg_pool") x4)
            else if pooling = some "avg" then applyGlobalAvgPool none x4
            else if pooling = some "max" then applyGlobalMaxPool none x4
            else x4
          Except.ok
            ⟨inputs, out, "inception_resnet_v2",
              if weights = some "imagenet" then
                [(if include_top.truthy then WEIGHTS_PATH else WEIGHTS_PATH_NO_TOP, false)]
              else []⟩

/-- `image.img_to_array` on an already decoded image: the pixel values as an
array.  We model a decoded image as its list of pixel values (rationals). -/
def img_to_array (img : List ℚ) : List ℚ := img

/-- `preprocess_input` from the script: convert to an array, prepend a batch
dimension with `np.expand_dims(x, axis=0)`, then elementwise divide by 255,
subtract 0.5 and multiply by 2. -/
def preprocess_input (x : List ℚ) : List (List ℚ) :=
  let a := img_to_array x
  let b := [a]
  let c := b.map fun row => row.map fun p => p / 255
  let d := c.map fun row => row.map fun p => p - 1 / 2
  d.map fun row => row.map fun p => p * 2

/-- An observable event along the main spine of the computation graph (the
chain obtained by always following a layer's first input): a spatial
max/average pooling, a named concatenation (`mixed_*`), a scaled residual
add, or a named convolution.  Unnamed convolutions, batch normalizations,
activations, global poolings and dense layers emit nothing. -/
inductive SpineEvent where
  | pool : SpineEvent
  | mixed (nm : String) : SpineEvent
  | residual (nm : String) (scale : ℚ) : SpineEvent
  | namedConv (nm : String) (filters : Nat) : SpineEvent
deriving DecidableEq

/-- The events along the main spine of the graph, listed from the graph input
outwards.  The side input of a residual add (the branch mix) and the non-first
branches of a concatenation are not part of the spine. -/
def spineEvents : KTensor → List SpineEvent
  | .input _ => []
  | .conv2d _ f _ _ _ _ nm x =>
    spineEvents x ++ (match nm with | some s => [.namedConv s f] | none => [])
  | .batchNorm _ _ _ _ x => spineEvents x
  | .activationLayer _ _ _ x => spineEvents x
  | .maxPool2d _ _ _ _ x => spineEvents x ++ [.pool]
  | .avgPool2d _ _ _ _ x => spineEvents x ++ [.pool]
  | .concatenate _ _ nm first _ => spineEvents first ++ [.mixed nm]
  | .scaleAdd _ sc nm a _ => spineEvents a ++ [.residual nm sc]
  | .globalAvgPool _ _ x => spineEvents x
  | .globalMaxPool _ _ x => spineEvents x
  | .dense _ _ _ _ x => spineEvents x

/-- Follows the spec's words: the assembly sequence of the network, read
along the main spine — the stem (whose two stride-2 max poolings are its
spine events), `inception_a` (`mixed_5b`), 10 repetitions of `block35` at
scale 0.17, `reduction_a` (`mixed_6a`), 20 repetitions of `block17` at scale
0.1, `reduction_b` (`mixed_7a`), 10 repetitions of `block8` at scale 0.2,
and a final named 1x1 convolution with 1536 filters. -/
def specAssemblySequence : List SpineEvent :=
  [.pool, .pool, .mixed "mixed_5b"]
    ++ ((List.range' 1 10).map fun i => .residual ("block35_" ++ toString i) (17 / 100))
    ++ [.mixed "mixed_6a"]
    ++ ((List.range' 1 20).map fun i => .residual ("block17_" ++ toString i) (1 / 10))
    ++ [.mixed "mixed_7a"]
    ++ ((List.range' 1 10).map fun i => .residual ("block8_" ++ toString i) (1 / 5))
    ++ [.namedConv "conv_7b" 1536]

/-- The tensor `inception_resnet_block` returns on a known block type with a
non-null activation: the concatenated branches, the biased and
activation-free 1x1 projection to `c` channels (where `c` is the block
input's channel count), the scaled residual add, and the final activation. -/
def resBlockResult (input : KTensor) (sc : ℚ) (block_type : String) (block_idx : Nat)
    (a : String) (branches : List KTensor) (c : Nat) : KTensor :=
  let block_name := block_type ++ "_" ++ toString block_idx
  let mix := applyConcat 3 (block_name ++ "_mixed") branches
  let up := conv2d_bn mix c (.rect 1 1) 1 .same none true (some (block_name ++ "_conv"))
  let up2 := applyScaleAdd sc block_name input up
  applyActivation a (some (block_name ++ "_ac")) up2

/-- Extracts, from a residual-block result, the branch list that was fed into
the block's `_mixed` concatenation, digging through the final activation, the
scaled residual add and the 1x1 projection convolution. -/
def blockBranches : Except PyErr KTensor → Option (List KTensor)
  | Except.ok (KTensor.activationLayer _ _ _ (KTensor.scaleAdd _ _ _ _
      (KTensor.conv2d _ _ _ _ _ _ _ (KTensor.concatenate _ _ _ first rest)))) =>
    some (first :: rest)
  | _ => none

/-- The call the script's `__main__` block performs:
`inception_resnet_v2(input_shape)` with `input_shape = (229, 299, 3)` passed
positionally into `include_top`, all remaining parameters left at their
defaults (`weights='imagenet'`, `input_shape=None`, `pooling=None`,
`classes=1000`). -/
def main_model : Except PyErr KModel :=
  inception_resnet_v2 (PyVal.pytuple [229, 299, 3]) (some "imagenet") none none 1000

end InceptionResnetV2

namespace InceptionResnetV2

@[simp] theorem applyConv2D_shape (f : Nat) (k : KernelSize) (s : Nat) (p : Padding)
    (ub : Bool) (nm : Option String) (x : KTensor) :
    (applyConv2D f k s p ub nm x).shape = conv2dShape p k s f x.shape := rfl

@[simp] theorem applyBatchNorm_shape (ax : Nat) (sc : Bool) (nm : Option String) (x : KTensor) :
    (applyBatchNorm ax sc nm x).shape = x.shape := rfl

@[simp] theorem applyActivation_shape (a : String) (nm : Option String) (x : KTensor) :
    (applyActivation a nm x).shape = x.shape := rfl

@[simp] theorem applyMaxPool_shape (p : KernelSize) (s : Nat) (pad : Padding) (x : KTensor) :
    (applyMaxPool p s pad x).shape = poolShape pad p s x.shape := rfl

@[simp] theorem applyAvgPool_shape (p : KernelSize) (s : Nat) (pad : Padding) (x : KTensor) :
    (applyAvgPool p s pad x).shape = poolShape pad p s x.shape := rfl

@[simp] theorem applyConcat_shape (ax : Nat) (nm : String) (b : KTensor) (rest : List KTensor) :
    (applyConcat ax nm (b :: rest)).shape = concatShape ((b :: rest).map KTensor.shape) := rfl

@[simp] theorem applyScaleAdd_shape (sc : ℚ) (nm : String) (a b : KTensor) :
    (applyScaleAdd sc nm a b).shape = a.shape := rfl

@[simp] theorem applyGlobalAvgPool_shape (nm : Option String) (x : KTensor) :
    (applyGlobalAvgPool nm x).shape = gapShape x.shape := rfl

@[simp] theorem applyGlobalMaxPool_shape (nm : Option String) (x : KTensor) :
    (applyGlobalMaxPool nm x).shape = gapShape x.shape := rfl

@[simp] theorem applyDense_shape (u : Nat) (a : Option String) (nm : Option String) (x : KTensor) :
    (applyDense u a nm x).shape = denseShape u x.shape := rfl

theorem convOutDim_same_one (n k : Nat) : convOutDim .same n k 1 = some n := by
  simp [convOutDim]

theorem conv2d_bn_shape (x : KTensor) (f : Nat) (k : KernelSize) (s : Nat) (p : Padding)
    (act : Option String) (ub : Bool) (nm : Option String) :
    (conv2d_bn x f k s p act ub nm).shape = conv2dShape p k s f x.shape := by
  cases act <;> cases ub <;> simp [conv2d_bn]

theorem conv2dShape_same_one (k : KernelSize) (f h w c : Nat) :
    conv2dShape .same k 1 f (some [h, w, c]) = some [h, w, f] := by
  simp [conv2dShape, convOutDim_same_one]

theorem conv2d_bn_shape_same_one (x : KTensor) (f : Nat) (k : KernelSize)
    (act : Option String) (ub : Bool) (nm : Option String) (h w c : Nat)
    (hx : x.shape = some [h, w, c]) :
    (conv2d_bn x f k 1 .same act ub nm).shape = some [h, w, f] := by
  rw [conv2d_bn_shape, hx, conv2dShape_same_one]

theorem poolShape_same_one (k : KernelSize) (h w c : Nat) :
    poolShape .same k 1 (some [h, w, c]) = some [h, w, c] := by
  simp [poolShape, convOutDim_same_one]

theorem spineEvents_conv2d_bn (x : KTensor) (f : Nat) (k : KernelSize) (s : Nat)
    (p : Padding) (act : Option String) (ub : Bool) :
    spineEvents (conv2d_bn x f k s p act ub none) = spineEvents x := by
  cases act <;> cases ub <;>
    simp [conv2d_bn, applyConv2D, applyBatchNorm, applyActivation, spineEvents]

theorem spineEvents_conv2d_bn_named (x : KTensor) (f : Nat) (k : KernelSize) (s : Nat)
    (p : Padding) (act : Option String) (ub : Bool) (nm : String) :
    spineEvents (conv2d_bn x f k s p act ub (some nm)) =
      spineEvents x ++ [SpineEvent.namedConv nm f] := by
  cases act <;> cases ub <;>
    simp [conv2d_bn, applyConv2D, applyBatchNorm, applyActivation, spineEvents]

theorem inception_stem_spine (x : KTensor) :
    spineEvents (inception_stem x) = spineEvents x ++ [SpineEvent.pool, SpineEvent.pool] := by
  simp [inception_stem, applyMaxPool, spineEvents, spineEvents_conv2d_bn]

theorem inception_stem_shape_299 :
    (inception_stem (KTensor.input [299, 299, 3])).shape = some [35, 35, 192] := rfl

theorem inception_a_spec (x : KTensor) (h w c : Nat) (hx : x.shape = some [h, w, c]) :
    (inception_a x).shape = some [h, w, 320] ∧
      spineEvents (inception_a x) = spineEvents x ++ [SpineEvent.mixed "mixed_5b"] := by
  have h11 := conv2d_bn_shape_same_one x 96 (.square 1) (some "relu") false none h w c hx
  have h12 := conv2d_bn_shape_same_one x 48 (.square 1) (some "relu") false none h w c hx
  have h22 := conv2d_bn_shape_same_one _ 64 (.square 5) (some "relu") false none h w 48 h12
  have h13 := conv2d_bn_shape_same_one x 64 (.square 1) (some "relu") false none h w c hx
  have h23 := conv2d_bn_shape_same_one _ 96 (.square 3) (some "relu") false none h w 64 h13
  have h33 := conv2d_bn_shape_same_one _ 96 (.square 3) (some "relu") false none h w 96 h23
  have h14 : (applyAvgPool (.rect 3 3) 1 .same x).shape = some [h, w, c] := by
    rw [applyAvgPool_shape, hx, poolShape_same_one]
  have h24 := conv2d_bn_shape_same_one _ 64 (.square 1) (some "relu") false none h w c h14
  constructor
  · simp only [inception_a, applyConcat_shape, List.map]
    rw [h11, h22, h33, h24]
    simp [concatShape]
  · simp [inception_a, applyConcat, applyAvgPool, spineEvents, spineEvents_conv2d_bn]

end InceptionResnetV2

namespace InceptionResnetV2

theorem conv2dShape_valid (k : KernelSize) (f s h w c : Nat)
    (hh : k.dims.1 ≤ h) (hw : k.dims.2 ≤ w) (hs : 0 < s) :
    conv2dShape .valid k s f (some [h, w, c]) =
      some [(h - k.dims.1) / s + 1, (w - k.dims.2) / s + 1, f] := by
  simp [conv2dShape, convOutDim, hh, hw, hs]

theorem poolShape_valid (k : KernelSize) (s h w c : Nat)
    (hh : k.dims.1 ≤ h) (hw : k.dims.2 ≤ w) (hs : 0 < s) :
    poolShape .valid k s (some [h, w, c]) =
      some [(h - k.dims.1) / s + 1, (w - k.dims.2) / s + 1, c] := by
  simp [poolShape, convOutDim, hh, hw, hs]

theorem reduction_a_spec (x : KTensor) (h w c : Nat) (hx : x.shape = some [h, w, c])
    (hh : 3 ≤ h) (hw : 3 ≤ w) :
    (reduction_a x).shape = some [(h - 3) / 2 + 1, (w - 3) / 2 + 1, 384 + (384 + c)] ∧
      spineEvents (reduction_a x) = spineEvents x ++ [SpineEvent.mixed "mixed_6a"] := by
  have h11 : (conv2d_bn x 384 (.square 3) 2 .valid (some "relu") false none).shape
      = some [(h - 3) / 2 + 1, (w - 3) / 2 + 1, 384] := by
    rw [conv2d_bn_shape, hx, conv2dShape_valid] <;> simp [KernelSize.dims, hh, hw]
  have h12 := conv2d_bn_shape_same_one x 256 (.square 1) (some "relu") false none h w c hx
  have h22 := conv2d_bn_shape_same_one _ 256 (.square 3) (some "relu") false none h w 256 h12
  have h32 : (conv2d_bn (conv2d_bn (conv2d_bn x 256 (.square 1) 1 .same (some "relu") false none)
        256 (.square 3) 1 .same (some "relu") false none)
        384 (.square 3) 2 .valid (some "relu") false none).shape
      = some [(h - 3) / 2 + 1, (w - 3) / 2 + 1, 384] := by
    rw [conv2d_bn_shape, h22, conv2dShape_valid] <;> simp [KernelSize.dims, hh, hw]
  have h13 : (applyMaxPool (.rect 3 3) 2 .valid x).shape
      = some [(h - 3) / 2 + 1, (w - 3) / 2 + 1, c] := by
    rw [applyMaxPool_shape, hx, poolShape_valid] <;> simp [KernelSize.dims, hh, hw]
  constructor
  · simp only [reduction_a, applyConcat_shape, List.map]
    rw [h11, h32, h13]
    simp [concatShape]
  · simp [reduction_a, applyConcat, applyMaxPool, spineEvents, spineEvents_conv2d_bn]

theorem reduction_b_spec (x : KTensor) (h w c : Nat) (hx : x.shape = some [h, w, c])
    (hh : 3 ≤ h) (hw : 3 ≤ w) :
    (reduction_b x).shape =
      some [(h - 3) / 2 + 1, (w - 3) / 2 + 1, 384 + (288 + (320 + c))] ∧
      spineEvents (reduction_b x) = spineEvents x ++ [SpineEvent.mixed "mixed_7a"] := by
  have h11 := conv2d_bn_shape_same_one x 256 (.square 1) (some "relu") false none h w c hx
  have h21 : (conv2d_bn (conv2d_bn x 256 (.square 1) 1 .same (some "relu") false none)
        384 (.square 3) 2 .valid (some "relu") false none).shape
      = some [(h - 3) / 2 + 1, (w - 3) / 2 + 1, 384] := by
    rw [conv2d_bn_shape, h11, conv2dShape_valid] <;> simp [KernelSize.dims, hh, hw]
  have h12 := conv2d_bn_shape_same_one x 256 (.square 1) (some "relu") false none h w c hx
  have h22 : (conv2d_bn (conv2d_bn x 256 (.square 1) 1 .same (some "relu") false none)
        288 (.square 3) 2 .valid (some "relu") false none).shape
      = some [(h - 3) / 2 + 1, (w - 3) / 2 + 1, 288] := by
    rw [conv2d_bn_shape, h12, conv2dShape_valid] <;> simp [KernelSize.dims, hh, hw]
  have h13 := conv2d_bn_shape_same_one x 256 (.square 1) (some "relu") false none h w c hx
  have h23 := conv2d_bn_shape_same_one _ 288 (.square 3) (some "relu") false none h w 256 h13
  have h33 : (conv2d_bn (conv2d_bn (conv2d_bn x 256 (.square 1) 1 .same (some "relu") false none)
        288 (.square 3) 1 .same (some "relu") false none)
        320 (.square 3) 2 .valid (some "relu") false none).shape
      = some [(h - 3) / 2 + 1, (w - 3) / 2 + 1, 320] := by
    rw [conv2d_bn_shape, h23, conv2dShape_valid] <;> simp [KernelSize.dims, hh, hw]
  have h14 : (applyMaxPool (.rect 3 3) 2 .valid x).shape
      = some [(h - 3) / 2 + 1, (w - 3) / 2 + 1, c] := by
    rw [applyMaxPool_shape, hx, poolShape_valid] <;> simp [KernelSize.dims, hh, hw]
  constructor
  · simp only [reduction_b, applyConcat_shape, List.map]
    rw [h21, h22, h33, h14]
    simp [concatShape]
  · simp [reduction_b, applyConcat, applyMaxPool, spineEvents, spineEvents_conv2d_bn]

theorem block35_result (input : KTensor) (sc : ℚ) (idx : Nat) (a : String) (h w c : Nat)
    (hsh : input.shape = some [h, w, c]) :
    inception_resnet_block input sc "block35" idx (some a) =
      Except.ok (resBlockResult input sc "block35" idx a (block35_branches input) c) := by
  have hbf : branchesFor "block35" input = some (block35_branches input) := rfl
  simp only [inception_resnet_block, hbf, hsh, resBlockResult]

theorem block17_result (input : KTensor) (sc : ℚ) (idx : Nat) (a : String) (h w c : Nat)
    (hsh : input.shape = some [h, w, c]) :
    inception_resnet_block input sc "block17" idx (some a) =
      Except.ok (resBlockResult input sc "block17" idx a (block17_branches input) c) := by
  have hbf : branchesFor "block17" input = some (block17_branches input) := rfl
  simp only [inception_resnet_block, hbf, hsh, resBlockResult]

theorem block8_result (input : KTensor) (sc : ℚ) (idx : Nat) (a : String) (h w c : Nat)
    (hsh : input.shape = some [h, w, c]) :
    inception_resnet_block input sc "block8" idx (some a) =
      Except.ok (resBlockResult input sc "block8" idx a (block8_branches input) c) := by
  have hbf : branchesFor "block8" input = some (block8_branches input) := rfl
  simp only [inception_resnet_block, hbf, hsh, resBlockResult]

theorem resBlockResult_shape (input : KTensor) (sc : ℚ) (bt : String) (idx : Nat)
    (a : String) (br : List KTensor) (c : Nat) :
    (resBlockResult input sc bt idx a br c).shape = input.shape := rfl

theorem resBlockResult_spine (input : KTensor) (sc : ℚ) (bt : String) (idx : Nat)
    (a : String) (br : List KTensor) (c : Nat) :
    spineEvents (resBlockResult input sc bt idx a br c) =
      spineEvents input ++ [SpineEvent.residual (bt ++ "_" ++ toString idx) sc] := rfl

theorem inception_resnet_block_ok (input : KTensor) (sc : ℚ) (bt : String) (idx : Nat)
    (a : String) (h w c : Nat)
    (hbt : bt = "block35" ∨ bt = "block17" ∨ bt = "block8")
    (hsh : input.shape = some [h, w, c]) :
    ∃ y, inception_resnet_block input sc bt idx (some a) = Except.ok y ∧
      y.shape = some [h, w, c] ∧
      spineEvents y = spineEvents input ++ [SpineEvent.residual (bt ++ "_" ++ toString idx) sc] := by
  rcases hbt with rfl | rfl | rfl
  · exact ⟨_, block35_result input sc idx a h w c hsh,
      by rw [resBlockResult_shape, hsh],
      resBlockResult_spine input sc "block35" idx a (block35_branches input) c⟩
  · exact ⟨_, block17_result input sc idx a h w c hsh,
      by rw [resBlockResult_shape, hsh],
      resBlockResult_spine input sc "block17" idx a (block17_branches input) c⟩
  · exact ⟨_, block8_result input sc idx a h w c hsh,
      by rw [resBlockResult_shape, hsh],
      resBlockResult_spine input sc "block8" idx a (block8_branches input) c⟩

theorem blockLoop_ok (sc : ℚ) (bt : String)
    (hbt : bt = "block35" ∨ bt = "block17" ∨ bt = "block8") :
    ∀ (idxs : List Nat) (x : KTensor) (h w c : Nat), x.shape = some [h, w, c] →
      ∃ y, blockLoop sc bt idxs x = Except.ok y ∧ y.shape = some [h, w, c] ∧
        spineEvents y = spineEvents x ++
          idxs.map (fun i => SpineEvent.residual (bt ++ "_" ++ toString i) sc) := by
  intro idxs
  induction idxs with
  | nil => intro x h w c hx; exact ⟨x, rfl, hx, by simp⟩
  | cons i rest ih =>
    intro x h w c hx
    obtain ⟨y, hy, hysh, hyev⟩ := inception_resnet_block_ok x sc bt i "relu" h w c hbt hx
    obtain ⟨z, hz, hzsh, hzev⟩ := ih y h w c hysh
    refine ⟨z, ?_, hzsh, ?_⟩
    · simp only [blockLoop, hy]
      exact hz
    · rw [hzev, hyev]; simp

end InceptionResnetV2

namespace InceptionResnetV2

theorem irv2_build (it : PyVal) (w : Option String) (pooling : Option String) (classes : Nat) :
    ∃ m x4, inception_resnet_v2 it w none pooling classes = Except.ok m ∧
      x4.shape = some [8, 8, 1536] ∧
      spineEvents x4 = specAssemblySequence ∧
      m.inputs = KTensor.input [299, 299, 3] ∧
      m.output = (if it.truthy then
          applyDense classes (some "softmax") (some "predictions")
            (applyGlobalAvgPool (some "avg_pool") x4)
        else if pooling = some "avg" then applyGlobalAvgPool none x4
        else if pooling = some "max" then applyGlobalMaxPool none x4
        else x4) ∧
      m.loads = (if w = some "imagenet" then
          [(if it.truthy then WEIGHTS_PATH else WEIGHTS_PATH_NO_TOP, false)]
        else []) := by
  have hstem : (inception_stem (KTensor.input [299, 299, 3])).shape = some [35, 35, 192] := rfl
  obtain ⟨ha_sh, ha_ev⟩ :=
    inception_a_spec (inception_stem (KTensor.input [299, 299, 3])) 35 35 192 hstem
  obtain ⟨x1, hx1, hx1sh, hx1ev⟩ :=
    blockLoop_ok (17 / 100) "block35" (Or.inl rfl) (List.range' 1 10)
      (inception_a (inception_stem (KTensor.input [299, 299, 3]))) 35 35 320 ha_sh
  obtain ⟨hra_sh, hra_ev⟩ := reduction_a_spec x1 35 35 320 hx1sh (by norm_num) (by norm_num)
  have hra_sh2 : (reduction_a x1).shape = some [17, 17, 1088] := by rw [hra_sh]
  obtain ⟨x2, hx2, hx2sh, hx2ev⟩ :=
    blockLoop_ok (1 / 10) "block17" (Or.inr (Or.inl rfl)) (List.range' 1 20)
      (reduction_a x1) 17 17 1088 hra_sh2
  obtain ⟨hrb_sh, hrb_ev⟩ := reduction_b_spec x2 17 17 1088 hx2sh (by norm_num) (by norm_num)
  have hrb_sh2 : (reduction_b x2).shape = some [8, 8, 2080] := by rw [hrb_sh]
  obtain ⟨x3, hx3, hx3sh, hx3ev⟩ :=
    blockLoop_ok (1 / 5) "block8" (Or.inr (Or.inr rfl)) (List.range' 1 10)
      (reduction_b x2) 8 8 2080 hrb_sh2
  have hx4sh :
      (conv2d_bn x3 1536 (.square 1) 1 .same (some "relu") false (some "conv_7b")).shape
        = some [8, 8, 1536] :=
    conv2d_bn_shape_same_one x3 1536 (.square 1) (some "relu") false (some "conv_7b") 8 8 2080 hx3sh
  have hx4ev :
      spineEvents (conv2d_bn x3 1536 (.square 1) 1 .same (some "relu") false (some "conv_7b"))
        = spineEvents x3 ++ [SpineEvent.namedConv "conv_7b" 1536] :=
    spineEvents_conv2d_bn_named x3 1536 (.square 1) 1 .same (some "relu") false "conv_7b"
  have hspine :
      spineEvents (conv2d_bn x3 1536 (.square 1) 1 .same (some "relu") false (some "conv_7b"))
        = specAssemblySequence := by
    rw [hx4ev, hx3ev, hrb_ev, hx2ev, hra_ev, hx1ev, ha_ev, inception_stem_spine]
    simp [specAssemblySequence, spineEvents]
  refine ⟨⟨KTensor.input [299, 299, 3],
      (if it.truthy then
          applyDense classes (some "softmax") (some "predictions")
            (applyGlobalAvgPool (some "avg_pool")
              (conv2d_bn x3 1536 (.square 1) 1 .same (some "relu") false (some "conv_7b")))
        else if pooling = some "avg" then
          applyGlobalAvgPool none
            (conv2d_bn x3 1536 (.square 1) 1 .same (some "relu") false (some "conv_7b"))
        else if pooling = some "max" then
          applyGlobalMaxPool none
            (conv2d_bn x3 1536 (.square 1) 1 .same (some "relu") false (some "conv_7b"))
        else conv2d_bn x3 1536 (.square 1) 1 .same (some "relu") false (some "conv_7b")),
      "inception_resnet_v2",
      (if w = some "imagenet" then
          [(if it.truthy then WEIGHTS_PATH else WEIGHTS_PATH_NO_TOP, false)]
        else [])⟩,
    conv2d_bn x3 1536 (.square 1) 1 .same (some "relu") false (some "conv_7b"),
    ?_, hx4sh, hspine, rfl, rfl, rfl⟩
  simp only [inception_resnet_v2, obtain_input_shape, hx1, hx2, hx3]

end InceptionResnetV2

namespace InceptionResnetV2

/-- C1: with a non-null activation `inception_resnet_block` concatenates the
branches, projects with a biased, activation-free 1x1 convolution back to the
input's channel count, forms the scaled residual sum and activates; but with
`activation = None` the code raises `UnboundLocalError` (the local `x` is only
bound inside `if activation is not None:`) instead of returning the tensor. -/
theorem inception_resnet_block_activation_none_bug :
    inception_resnet_block (KTensor.input [35, 35, 320]) (17 / 100) "block35" 1 none
        = Except.error (PyErr.unboundLocal "x") ∧
      inception_resnet_block (KTensor.input [35, 35, 320]) (17 / 100) "block35" 1 (some "relu")
        = Except.ok (resBlockResult (KTensor.input [35, 35, 320]) (17 / 100) "block35" 1 "relu"
            (block35_branches (KTensor.input [35, 35, 320])) 320) :=
  ⟨rfl, rfl⟩

/-- C2: any `block_type` outside the three known values makes
`inception_resnet_block` fail with the `ValueError` message, never silently
defaulting; and each known value builds exactly its own branch topology. -/
theorem inception_resnet_block_dispatch :
    (∀ (input : KTensor) (sc : ℚ) (bt : String) (idx : Nat) (act : Option String),
        bt ≠ "block35" → bt ≠ "block17" → bt ≠ "block8" →
        inception_resnet_block input sc bt idx act =
          Except.error (PyErr.valueError
            ("Unknown Inception-ResNet block type. Expects \"block35\", \"block17\" or \"block8\", but got: "
              ++ bt))) ∧
    (∀ (input : KTensor) (sc : ℚ) (idx : Nat) (a : String) (h w c : Nat),
        input.shape = some [h, w, c] →
        blockBranches (inception_resnet_block input sc "block35" idx (some a)) =
            some (block35_branches input) ∧
          blockBranches (inception_resnet_block input sc "block17" idx (some a)) =
            some (block17_branches input) ∧
          blockBranches (inception_resnet_block input sc "block8" idx (some a)) =
            some (block8_branches input)) := by
  constructor
  · intro input sc bt idx act h35 h17 h8
    simp [inception_resnet_block, branchesFor, h35, h17, h8]
  · intro input sc idx a h w c hsh
    refine ⟨?_, ?_, ?_⟩
    · rw [block35_result input sc idx a h w c hsh]; rfl
    · rw [block17_result input sc idx a h w c hsh]; rfl
    · rw [block8_result input sc idx a h w c hsh]; rfl

theorem inception_resnet_block_dispatch_witness :
    inception_resnet_block (KTensor.input [5, 5, 7]) (1 / 2) "block99" 4 (some "relu") =
        Except.error (PyErr.valueError
          ("Unknown Inception-ResNet block type. Expects \"block35\", \"block17\" or \"block8\", but got: "
            ++ "block99")) ∧
      blockBranches (inception_resnet_block (KTensor.input [5, 5, 7]) (1 / 2) "block35" 4 (some "relu")) =
        some (block35_branches (KTensor.input [5, 5, 7])) :=
  ⟨inception_resnet_block_dispatch.1 (KTensor.input [5, 5, 7]) (1 / 2) "block99" 4 (some "relu")
      (by decide) (by decide) (by decide),
    (inception_resnet_block_dispatch.2 (KTensor.input [5, 5, 7]) (1 / 2) 4 "relu" 5 5 7 rfl).1⟩

/-- C3: the full model assembles stem (two stride-2 max pools on the spine) →
`inception_a` → 10 x block35 at fixed scale 0.17 → `reduction_a` → 20 x
block17 at fixed scale 0.1 → `reduction_b` → 10 x block8 at fixed scale 0.2 →
final 1x1 convolution with 1536 filters, in that order. -/
theorem inception_resnet_v2_assembly :
    ∃ m, inception_resnet_v2 (PyVal.pybool true) (some "imagenet") none none 1000 = Except.ok m ∧
      spineEvents m.output = specAssemblySequence := by
  obtain ⟨m, x4, hrun, hx4sh, hx4ev, hin, hout, hloads⟩ :=
    irv2_build (PyVal.pybool true) (some "imagenet") none 1000
  refine ⟨m, hrun, ?_⟩
  rw [hout]
  simp [PyVal.truthy, applyDense, applyGlobalAvgPool, spineEvents, hx4ev]

/-- C4: a 299 x 299 x 3 input through `inception_stem` yields a 35 x 35
feature map (with 192 channels). -/
theorem inception_stem_spatial_size :
    (inception_stem (KTensor.input [299, 299, 3])).shape = some [35, 35, 192] := rfl

/-- C5: in all three residual-block variants every branch keeps the block
input's spatial size, and the concatenation has channel count 32+32+64 = 128
for block35, 192+192 = 384 for block17 and 192+256 = 448 for block8. -/
theorem inception_resnet_block_branch_invariants :
    ∀ (input : KTensor) (h w c : Nat), input.shape = some [h, w, c] →
      (∀ b ∈ block35_branches input, ∃ f, b.shape = some [h, w, f]) ∧
      (∀ b ∈ block17_branches input, ∃ f, b.shape = some [h, w, f]) ∧
      (∀ b ∈ block8_branches input, ∃ f, b.shape = some [h, w, f]) ∧
      (∀ nm : String, (applyConcat 3 nm (block35_branches input)).shape = some [h, w, 128]) ∧
      (∀ nm : String, (applyConcat 3 nm (block17_branches input)).shape = some [h, w, 384]) ∧
      (∀ nm : String, (applyConcat 3 nm (block8_branches input)).shape = some [h, w, 448]) := by
  intro input h w c hsh
  have a11 := conv2d_bn_shape_same_one input 32 (.square 1) (some "relu") false none h w c hsh
  have a12 := conv2d_bn_shape_same_one input 32 (.square 1) (some "relu") false none h w c hsh
  have a22 := conv2d_bn_shape_same_one _ 32 (.square 3) (some "relu") false none h w 32 a12
  have a23 := conv2d_bn_shape_same_one _ 48 (.square 3) (some "relu") false none h w 32 a12
  have a33 := conv2d_bn_shape_same_one _ 64 (.square 3) (some "relu") false none h w 48 a23
  have b11 := conv2d_bn_shape_same_one input 192 (.square 1) (some "relu") false none h w c hsh
  have b12 := conv2d_bn_shape_same_one input 128 (.square 1) (some "relu") false none h w c hsh
  have b22 := conv2d_bn_shape_same_one _ 160 (.rect 1 7) (some "relu") false none h w 128 b12
  have b32 := conv2d_bn_shape_same_one _ 192 (.rect 7 1) (some "relu") false none h w 160 b22
  have c11 := conv2d_bn_shape_same_one input 192 (.square 1) (some "relu") false none h w c hsh
  have c12 := conv2d_bn_shape_same_one input 192 (.square 1) (some "relu") false none h w c hsh
  have c22 := conv2d_bn_shape_same_one _ 224 (.rect 1 3) (some "relu") false none h w 192 c12
  have c32 := conv2d_bn_shape_same_one _ 256 (.rect 3 1) (some "relu") false none h w 224 c22
  refine ⟨?_, ?_, ?_, ?_, ?_, ?_⟩
  · intro b hb
    simp only [block35_branches, List.mem_cons, List.not_mem_nil, or_false] at hb
    rcases hb with rfl | rfl | rfl
    exacts [⟨32, a11⟩, ⟨32, a22⟩, ⟨64, a33⟩]
  · intro b hb
    simp only [block17_branches, List.mem_cons, List.not_mem_nil, or_false] at hb
    rcases hb with rfl | rfl
    exacts [⟨192, b11⟩, ⟨192, b32⟩]
  · intro b hb
    simp only [block8_branches, List.mem_cons, List.not_mem_nil, or_false] at hb
    rcases hb with rfl | rfl
    exacts [⟨192, c11⟩, ⟨256, c32⟩]
  · intro nm
    simp only [block35_branches, applyConcat_shape, List.map]
    rw [a11, a22, a33]
    simp [concatShape]
  · intro nm
    simp only [block17_branches, applyConcat_shape, List.map]
    rw [b11, b32]
    simp [concatShape]
  · intro nm
    simp only [block8_branches, applyConcat_shape, List.map]
    rw [c11, c32]
    simp [concatShape]

theorem inception_resnet_block_branch_invariants_witness :
    (applyConcat 3 "m" (block35_branches (KTensor.input [7, 9, 11]))).shape = some [7, 9, 128] ∧
      (applyConcat 3 "m" (block17_branches (KTensor.input [7, 9, 11]))).shape = some [7, 9, 384] ∧
      (applyConcat 3 "m" (block8_branches (KTensor.input [7, 9, 11]))).shape = some [7, 9, 448] :=
  ⟨(inception_resnet_block_branch_invariants (KTensor.input [7, 9, 11]) 7 9 11 rfl).2.2.2.1 "m",
    (inception_resnet_block_branch_invariants (KTensor.input [7, 9, 11]) 7 9 11 rfl).2.2.2.2.1 "m",
    (inception_resnet_block_branch_invariants (KTensor.input [7, 9, 11]) 7 9 11 rfl).2.2.2.2.2 "m"⟩

end InceptionResnetV2

namespace InceptionResnetV2

/-- C6: `preprocess_input` is a pure map wrapping the image in a batch
dimension and sending every pixel `p` to `(p/255 - 0.5) * 2`; an all-255
image becomes all 1, an all-0 image all -1, an all-127.5 image all 0. -/
theorem preprocess_input_spec :
    (∀ x : List ℚ, preprocess_input x = [x.map fun p => (p / 255 - 1 / 2) * 2]) ∧
      preprocess_input (List.replicate (299 * 299 * 3) 255) =
        [List.replicate (299 * 299 * 3) 1] ∧
      preprocess_input (List.replicate (299 * 299 * 3) 0) =
        [List.replicate (299 * 299 * 3) (-1)] ∧
      preprocess_input (List.replicate (299 * 299 * 3) (255 / 2)) =
        [List.replicate (299 * 299 * 3) 0] := by
  have hgen : ∀ x : List ℚ, preprocess_input x = [x.map fun p => (p / 255 - 1 / 2) * 2] := by
    intro x
    simp [preprocess_input, img_to_array, List.map_map, Function.comp]
  refine ⟨hgen, ?_, ?_, ?_⟩ <;> rw [hgen] <;> rw [List.map_replicate] <;> norm_num

/-- C7: `conv2d_bn` is convolution, then batch normalization over the channel
axis with scale disabled exactly when `use_bias` is false, then the given
activation exactly when it is non-null; and its output shape is the Keras
convolution output shape. -/
theorem conv2d_bn_spec :
    ∀ (x : KTensor) (f : Nat) (k : KernelSize) (s : Nat) (p : Padding) (a : String)
      (nm : Option String),
      conv2d_bn x f k s p (some a) false nm =
          applyActivation a (nm.map fun t => t ++ "_ac")
            (applyBatchNorm 3 false (nm.map fun t => t ++ "_bn")
              (applyConv2D f k s p false nm x)) ∧
        conv2d_bn x f k s p (some a) true nm =
          applyActivation a (nm.map fun t => t ++ "_ac") (applyConv2D f k s p true nm x) ∧
        conv2d_bn x f k s p none false nm =
          applyBatchNorm 3 false (nm.map fun t => t ++ "_bn") (applyConv2D f k s p false nm x) ∧
        conv2d_bn x f k s p none true nm = applyConv2D f k s p true nm x ∧
        (conv2d_bn x f k s p (some a) false nm).shape = conv2dShape p k s f x.shape :=
  fun x f k s p a nm =>
    ⟨rfl, rfl, rfl, rfl, conv2d_bn_shape x f k s p (some a) false nm⟩

/-- C8: with the classification head and the default 1000 classes the output
is the softmax `Dense` layer with last dimension exactly 1000 and softmax
outputs summing to 1; headless with `pooling='avg'` the output is the global
average pooling of the 8 x 8 x 1536 feature map, i.e. exactly 1536 channels
and no spatial dimensions left. -/
theorem inception_resnet_v2_head_contract :
    (∃ m, inception_resnet_v2 (PyVal.pybool true) (some "imagenet") none none 1000 =
          Except.ok m ∧
        m.output.shape = some [1000] ∧
        (∃ sh x, m.output = KTensor.dense sh 1000 (some "softmax") (some "predictions") x) ∧
        (∀ v : Fin 1000 → ℝ,
          (Finset.univ.sum fun i =>
              Real.exp (v i) / Finset.univ.sum fun j => Real.exp (v j)) = 1)) ∧
    (∃ m x, inception_resnet_v2 (PyVal.pybool false) (some "imagenet") none (some "avg") 1000 =
          Except.ok m ∧
        m.output = applyGlobalAvgPool none x ∧ x.shape = some [8, 8, 1536] ∧
        m.output.shape = some [1536]) := by
  constructor
  · obtain ⟨m, x4, hrun, hx4sh, hx4ev, hin, hout, hloads⟩ :=
      irv2_build (PyVal.pybool true) (some "imagenet") none 1000
    have hout2 : m.output =
        applyDense 1000 (some "softmax") (some "predictions")
          (applyGlobalAvgPool (some "avg_pool") x4) := by
      rw [hout]; rfl
    refine ⟨m, hrun, ?_, ⟨_, _, hout2⟩, ?_⟩
    · rw [hout2, applyDense_shape, applyGlobalAvgPool_shape, hx4sh]
      simp [gapShape, denseShape]
    · intro v
      rw [← Finset.sum_div]
      exact div_self (ne_of_gt (Finset.sum_pos (fun i _ => Real.exp_pos (v i))
        (Finset.univ_nonempty_iff.mpr ⟨⟨0, by norm_num⟩⟩)))
  · obtain ⟨m, x4, hrun, hx4sh, hx4ev, hin, hout, hloads⟩ :=
      irv2_build (PyVal.pybool false) (some "imagenet") (some "avg") 1000
    have hout2 : m.output = applyGlobalAvgPool none x4 := by
      rw [hout]; rfl
    refine ⟨m, x4, hrun, hout2, hx4sh, ?_⟩
    rw [hout2, applyGlobalAvgPool_shape, hx4sh]
    simp [gapShape]

/-- C9: a weight file is loaded exactly when `weights = 'imagenet'`; the path
is the full-model one when the classification head is included (truthy
`include_top`) and the no-top one otherwise; exactly one `load_weights` call
is made, wholesale (`by_name=False`), with no fallback or retry. -/
theorem inception_resnet_v2_weight_loading :
    ∀ (include_top : PyVal) (weights pooling : Option String) (classes : Nat),
      ∃ m, inception_resnet_v2 include_top weights none pooling classes = Except.ok m ∧
        m.loads = (if weights = some "imagenet" then
            [(if include_top.truthy then WEIGHTS_PATH else WEIGHTS_PATH_NO_TOP, false)]
          else []) := by
  intro it w pooling classes
  obtain ⟨m, x4, hrun, _, _, _, _, hloads⟩ := irv2_build it w pooling classes
  exact ⟨m, hrun, hloads⟩

/-- C10: the script's `__main__` call passes the tuple `(229, 299, 3)`
positionally into `include_top`; the non-empty tuple is truthy, so the model
is built with the classification head (the softmax `Dense` output), the
full-model weights path is selected, and the input layer gets the default
299 x 299 x 3 shape, not the tuple's. -/
theorem main_call_include_top_tuple :
    PyVal.truthy (PyVal.pytuple [229, 299, 3]) = true ∧
      ∃ m, main_model = Except.ok m ∧
        m.inputs = KTensor.input [299, 299, 3] ∧
        (∃ sh x, m.output = KTensor.dense sh 1000 (some "softmax") (some "predictions") x) ∧
        m.loads = [(WEIGHTS_PATH, false)] := by
  obtain ⟨m, x4, hrun, hx4sh, hx4ev, hin, hout, hloads⟩ :=
    irv2_build (PyVal.pytuple [229, 299, 3]) (some "imagenet") none 1000
  have hout2 : m.output =
      applyDense 1000 (some "softmax") (some "predictions")
        (applyGlobalAvgPool (some "avg_pool") x4) := by
    rw [hout]; rfl
  have hloads2 : m.loads = [(WEIGHTS_PATH, false)] := by rw [hloads]; rfl
  exact ⟨rfl, m, hrun, hin, ⟨_, _, hout2⟩, hloads2⟩

end InceptionResnetV2

namespace InceptionResnetV2

theorem preprocess_input_spec_witness :
    preprocess_input [255, 0] = [[1, -1]] := by
  rw [preprocess_input_spec.1]
  norm_num

theorem conv2d_bn_spec_witness :
    conv2d_bn (KTensor.input [4, 4, 2]) 5 (.square 3) 1 .same (some "relu") false (some "cv") =
      applyActivation "relu" ((some "cv").map fun t => t ++ "_ac")
        (applyBatchNorm 3 false ((some "cv").map fun t => t ++ "_bn")
          (applyConv2D 5 (.square 3) 1 .same false (some "cv") (KTensor.input [4, 4, 2]))) :=
  (conv2d_bn_spec (KTensor.input [4, 4, 2]) 5 (.square 3) 1 .same "relu" (some "cv")).1

theorem inception_resnet_v2_weight_loading_witness :
    ∃ m, inception_resnet_v2 (PyVal.pybool true) (some "imagenet") none none 1000 =
        Except.ok m ∧
      m.loads = [(WEIGHTS_PATH, false)] := by
  obtain ⟨m, hrun, hloads⟩ :=
    inception_resnet_v2_weight_loading (PyVal.pybool true) (some "imagenet") none 1000
  exact ⟨m, hrun, by rw [hloads]; rfl⟩

end InceptionResnetV2
